import Mathlib

/-!
Shallow embedding of the `kandinsky` Go client library
(github.com/alekslesik/kandinsky) and proofs about its behavior.

The repository has two generations of its two modules:
`kandinsky.go` / `image.go` and the variants in `unnamed/part_003` /
`unnamed/part_004`.  Both generations are embedded where they differ
(`SetModel`); where one generation subsumes the other (the image module of
`part_004` adds the validation the named test file `image_test.go`
requires), the subsuming one is embedded.

Network transport, the external `curl` process and the file system are not
modelled as real effects: each function takes its already-parsed inputs
(HTTP status code, decoded JSON body) and returns, next to its result, an
explicit trace of the observable effects it performs (submissions issued,
files opened and written, sleeps).  Everything else — the guard order, the
status classification, the defaulting, the base64 handling including Go's
`base64.StdEncoding.Decode` buffer convention — is translated directly
from the source.
-/

namespace Kandinsky

/-- Error values declared with `errors.New` in `kandinsky.go` and
`unnamed/part_004` (`image.go` variant).  Each Go error value is one
constructor; `ErrDecode` stands for the `base64.CorruptInputError`
propagated out of decoding. -/
inductive KErr where
  | ErrEmptyKey
  | ErrEmptySecret
  | ErrEmptyPrompt
  | ErrEmptyUUID
  | ErrAuth
  | ErrTaskNotCompleted
  | ErrNotFound
  | ErrUnauthorized
  | ErrInternalServerError
  | ErrUnsupportedMediaType
  | ErrBadRequest
  | ErrEmptyImage
  | ErrEmptyFileName
  | ErrEmptyFilePath
  | ErrDecode
  | apiError (status : Int) (label : String) (message : String)
deriving DecidableEq

/-- `Model` struct (`kandinsky.go`).  The `Version float32` field is not
modelled (floating point, used by no claim and no code path). -/
structure Model where
  ID : Int
  Name : String
  Type' : String
deriving DecidableEq

/-- Nested `generateParams` struct of `Params`. -/
structure GenerateParams where
  Query : String
deriving DecidableEq

/-- `Params` struct (`kandinsky.go`).  `Type'` renders the Go field
`Type`. -/
structure Params where
  Width : Int
  Height : Int
  NumImages : Int
  Type' : String
  Style : String
  NegativePrompt : String
  GenerateParams : GenerateParams
deriving DecidableEq

/-- `UUID` struct (`kandinsky.go`): task handle returned at submission. -/
structure UUID where
  ID : String
  Status : String
deriving DecidableEq

/-- `Image` struct (`image.go`): the parsed status/result body. -/
structure Image where
  UUID : String
  Status : String
  Images : List String
  Censored : Bool
deriving DecidableEq

/-- `checkStatusCode` (`kandinsky.go` lines 404-419, identically
`unnamed/part_003` lines 336-351): maps an HTTP status code to the library
error, `none` meaning no error. -/
def checkStatusCode (code : Nat) : Option KErr :=
  if code = 400 then some .ErrBadRequest
  else if code = 401 then some .ErrUnauthorized
  else if code = 404 then some .ErrNotFound
  else if code = 500 then some .ErrInternalServerError
  else if code = 415 then some .ErrUnsupportedMediaType
  else none

/-- `setDefaultParams` (`kandinsky.go` lines 422-436): sequential
zero-value defaulting, then the unconditional `Type = "GENERATE"`. -/
def setDefaultParams (p : Params) : Params :=
  let p := if p.Width = 0 then { p with Width := 128 } else p
  let p := if p.Height = 0 then { p with Height := 128 } else p
  let p := if p.NumImages = 0 then { p with NumImages := 1 } else p
  { p with Type' := "GENERATE" }

/-! ## Base64 (Go `encoding/base64`, `StdEncoding`) -/

/-- The standard base64 alphabet. -/
def b64Alphabet : List Char :=
  "ABCDEFGHIJKLMNOPQRSTUVWXYZabcdefghijklmnopqrstuvwxyz0123456789+/".data

/-- Character of a 6-bit value in the standard alphabet. -/
def b64Char (n : Nat) : Char := b64Alphabet.getD n 'A'

/-- Index of a character in the standard alphabet, `none` for characters
outside it (including `'='`). -/
def b64Index (c : Char) : Option Nat :=
  if 65 ≤ c.toNat ∧ c.toNat ≤ 90 then some (c.toNat - 65)
  else if 97 ≤ c.toNat ∧ c.toNat ≤ 122 then some (c.toNat - 97 + 26)
  else if 48 ≤ c.toNat ∧ c.toNat ≤ 57 then some (c.toNat - 48 + 52)
  else if c = '+' then some 62
  else if c = '/' then some 63
  else none

/-- Standard base64 encoding with `'='` padding
(`base64.StdEncoding.EncodeToString`). -/
def base64Encode : List Nat → List Char
  | [] => []
  | [b1] => [b64Char (b1 / 4), b64Char (b1 % 4 * 16), '=', '=']
  | [b1, b2] =>
      [b64Char (b1 / 4), b64Char (b1 % 4 * 16 + b2 / 16),
       b64Char (b2 % 16 * 4), '=']
  | b1 :: b2 :: b3 :: rest =>
      b64Char (b1 / 4) :: b64Char (b1 % 4 * 16 + b2 / 16) ::
      b64Char (b2 % 16 * 4 + b3 / 64) :: b64Char (b3 % 64) ::
      base64Encode rest

/-- Decode one 4-character base64 quantum, honouring `'='` padding in the
last one or two positions. -/
def decodeQuantum (c1 c2 c3 c4 : Char) : Option (List Nat) :=
  match b64Index c1, b64Index c2 with
  | some a, some b =>
    if c3 = '=' then
      if c4 = '=' then some [a * 4 + b / 16] else none
    else
      match b64Index c3 with
      | some c =>
        if c4 = '=' then some [a * 4 + b / 16, b % 16 * 16 + c / 4]
        else
          match b64Index c4 with
          | some d =>
              some [a * 4 + b / 16, b % 16 * 16 + c / 4, c % 4 * 64 + d]
          | none => none
      | none => none
  | _, _ => none

/-- Whether a quantum carries padding (and hence must be the last one). -/
def quantumPadded (c3 c4 : Char) : Bool := c3 = '=' || c4 = '='

/-- Standard base64 decoding (`base64.StdEncoding` semantics): input in
4-character quanta, padding only in the final quantum, `none` on corrupt
input.  Returns exactly the decoded bytes. -/
def base64Decode : List Char → Option (List Nat)
  | [] => some []
  | c1 :: c2 :: c3 :: c4 :: rest =>
    match decodeQuantum c1 c2 c3 c4 with
    | some q =>
      if quantumPadded c3 c4 then
        if rest.isEmpty then some q else none
      else
        match base64Decode rest with
        | some r => some (q ++ r)
        | none => none
    | none => none
  | _ => none

/-! ## Image decoder (`unnamed/part_004`, the `image.go` variant carrying
the validation that the named test file `image_test.go` exercises) -/

/-- One observable file-system effect of a decoder operation. -/
inductive FileOp where
  | openTrunc (dest : String)
  | write (dest : String) (data : List Nat)
deriving DecidableEq

/-- Destination path of a file operation. -/
def FileOp.dest : FileOp → String
  | .openTrunc d => d
  | .write d _ => d

/-- `ToByte` (`unnamed/part_004` lines 28-43; `image.go` lines 21-31 is
the same body without the empty-images guard).  Go allocates
`make([]byte, len(i.Images[0]))` — the *encoded* length — decodes into it
with `base64.StdEncoding.Decode`, ignores the returned count `n`, and
returns the whole buffer: the decoded bytes followed by the untouched zero
bytes of the tail. -/
def ToByte (i : Image) : Except KErr (List Nat) :=
  if i.Images.length = 0 then .error .ErrEmptyImage
  else
    let s := i.Images.headD ""
    match base64Decode s.data with
    | none => .error .ErrDecode
    | some bytes => .ok (bytes ++ List.replicate (s.length - bytes.length) 0)

/-- Fixed destination of `ToFile`. -/
def tempFileName : String := ".temp.png"

/-- `ToFile` (`unnamed/part_004` lines 46-67): guard, open-and-truncate
`.temp.png`, `DecodeString`, write.  The file system itself is modelled as
always succeeding; the returned trace records what was opened and
written. -/
def ToFile (i : Image) : Except KErr String × List FileOp :=
  if i.Images.length = 0 then (.error .ErrEmptyImage, [])
  else
    match base64Decode (i.Images.headD "").data with
    | none => (.error .ErrDecode, [.openTrunc tempFileName])
    | some data =>
        (.ok tempFileName,
         [.openTrunc tempFileName, .write tempFileName data])

/-- `SavePNGTo` (`unnamed/part_004` lines 70-102): guards in source order
(images, name, path), then open-and-truncate `path+name+".png"`,
`DecodeString`, write. -/
def SavePNGTo (i : Image) (name path : String) : Option KErr × List FileOp :=
  if i.Images.length = 0 then (some .ErrEmptyImage, [])
  else if name = "" then (some .ErrEmptyFileName, [])
  else if path = "" then (some .ErrEmptyFilePath, [])
  else
    let dest := path ++ name ++ ".png"
    match base64Decode (i.Images.headD "").data with
    | none => (some .ErrDecode, [.openTrunc dest])
    | some data => (none, [.openTrunc dest, .write dest data])

/-- `SaveJPGTo` (`unnamed/part_004` lines 105-137): same body as
`SavePNGTo` with extension `".jpg"`. -/
def SaveJPGTo (i : Image) (name path : String) : Option KErr × List FileOp :=
  if i.Images.length = 0 then (some .ErrEmptyImage, [])
  else if name = "" then (some .ErrEmptyFileName, [])
  else if path = "" then (some .ErrEmptyFilePath, [])
  else
    let dest := path ++ name ++ ".jpg"
    match base64Decode (i.Images.headD "").data with
    | none => (some .ErrDecode, [.openTrunc dest])
    | some data => (none, [.openTrunc dest, .write dest data])

/-! ## Model resolver (`SetModel`, both generations) -/

/-- Result of a `SetModel` call.  `indexOutOfRange` is the Go runtime
panic raised by `m[0]` on an empty slice. -/
inductive SetModelOut where
  | ok (id : Int)
  | err (e : KErr)
  | indexOutOfRange
deriving DecidableEq

/-- `SetModel` of `unnamed/part_003` (lines 180-223), after transport and
JSON decoding: classify the HTTP code, take `m[0]` (a runtime panic when
the array is empty), treat id 0 as `ErrAuth`, otherwise store the model.
Second component is the client's stored model after the call. -/
def SetModelV2 (code : Nat) (models : List Model) (prev : Model) :
    SetModelOut × Model :=
  match checkStatusCode code with
  | some e => (.err e, prev)
  | none =>
    match models with
    | [] => (.indexOutOfRange, prev)
    | m0 :: _ =>
      if m0.ID = 0 then (.err .ErrAuth, prev) else (.ok m0.ID, m0)

/-- `SetModel` of `kandinsky.go` (lines 241-278), after transport and JSON
decoding: classify the HTTP code, store `m[0]` unconditionally (a runtime
panic when the array is empty) and return its id with no error. -/
def SetModelKand (code : Nat) (models : List Model) (prev : Model) :
    SetModelOut × Model :=
  match checkStatusCode code with
  | some e => (.err e, prev)
  | none =>
    match models with
    | [] => (.indexOutOfRange, prev)
    | m0 :: _ => (.ok m0.ID, m0)

/-! ## Job submitter (`GetImageUUID`, `kandinsky.go` lines 286-347) -/

/-- `GetImageUUID` (`kandinsky.go` lines 286-347): default the model id,
apply `setDefaultParams`, reject an empty prompt before anything runs,
then marshal the params and execute the `curl` submission.  The external
process together with the parsing of its output is abstracted as the
oracle `run` (it receives exactly the data the process receives: the
defaulted params and the model id); the second component records every
invocation of the external process. -/
def GetImageUUID (modelID : Int) (p : Params)
    (run : Params → Int → Except KErr UUID) :
    Except KErr UUID × List (Params × Int) :=
  let mid := if modelID = 0 then 4 else modelID
  let p' := setDefaultParams p
  if p'.GenerateParams.Query = "" then (.error .ErrEmptyPrompt, [])
  else (run p' mid, [(p', mid)])

/-! ## Poll loop (`CheckImage`, `kandinsky.go` lines 350-401; the loop
body is identical to `Check` of `unnamed/part_003` lines 286-333) -/

/-- One status-endpoint response as the loop observes it: the HTTP status
code and the body already parsed into an `Image` (the claims range over
well-formed responses, so JSON decoding is not a failure path here). -/
structure PollResponse where
  code : Nat
  body : Image
deriving DecidableEq

/-- Terminal outcome of the poll loop.  `pending` means the supplied
response sequence was exhausted with the task still pending — the Go loop
would keep polling. -/
inductive PollOutcome where
  | done (img : Image)
  | failed (e : KErr)
  | pending
deriving DecidableEq

/-- What a run of the poll loop did: its outcome, how many times it hit
the status endpoint, and the sleeps it performed (seconds, in order). -/
structure PollResult where
  outcome : PollOutcome
  polls : Nat
  sleeps : List Nat
deriving DecidableEq

/-- `time.Sleep(time.Second * 10)`: the fixed poll interval, seconds. -/
def sleepInterval : Nat := 10

/-- The `for` loop of `CheckImage`, one recursion step per iteration:
classify the HTTP code (any mapped error returns at once), then branch on
the parsed body's status — `"DONE"` returns the image, `"FAIL"` returns
`ErrTaskNotCompleted`, anything else sleeps the fixed interval and
polls again. -/
def checkImageLoop : List PollResponse → PollResult
  | [] => ⟨.pending, 0, []⟩
  | r :: rest =>
    match checkStatusCode r.code with
    | some e => ⟨.failed e, 1, []⟩
    | none =>
      if r.body.Status = "DONE" then ⟨.done r.body, 1, []⟩
      else if r.body.Status = "FAIL" then
        ⟨.failed .ErrTaskNotCompleted, 1, []⟩
      else
        let s := checkImageLoop rest
        ⟨s.outcome, s.polls + 1, sleepInterval :: s.sleeps⟩

/-- `CheckImage` (`kandinsky.go` lines 350-401): reject an empty task
identifier before any network activity, then run the poll loop over the
responses the endpoint serves. -/
def CheckImage (u : UUID) (rs : List PollResponse) : PollResult :=
  if u.ID = "" then ⟨.failed .ErrEmptyUUID, 0, []⟩
  else checkImageLoop rs

/-- Retarget a file operation from one destination to another, leaving the
written data unchanged (used to relate the PNG and JPG writers). -/
def remapDest (a b : String) : FileOp → FileOp
  | .openTrunc d => .openTrunc (if d = a then b else d)
  | .write d data => .write (if d = a then b else d) data

instance {ε α : Type} [DecidableEq ε] [DecidableEq α] :
    DecidableEq (Except ε α)
  | .ok a, .ok b =>
    if h : a = b then .isTrue (by rw [h]) else .isFalse (by simp [h])
  | .error a, .error b =>
    if h : a = b then .isTrue (by rw [h]) else .isFalse (by simp [h])
  | .ok _, .error _ => .isFalse (by simp)
  | .error _, .ok _ => .isFalse (by simp)

/-- A prefix of responses that all pass the HTTP-status check and are all
non-terminal only adds one poll and one fixed-interval sleep per response
before whatever the rest of the loop does. -/
theorem checkImageLoop_append_pending (pre rest : List PollResponse)
    (hpre : ∀ x ∈ pre, checkStatusCode x.code = none ∧
      x.body.Status ≠ "DONE" ∧ x.body.Status ≠ "FAIL") :
    checkImageLoop (pre ++ rest) =
      ⟨(checkImageLoop rest).outcome, (checkImageLoop rest).polls + pre.length,
       List.replicate pre.length sleepInterval ++ (checkImageLoop rest).sleeps⟩ := by
  induction pre with
  | nil => simp
  | cons x pre ih =>
    obtain ⟨hc, hd, hf⟩ := hpre x (List.mem_cons_self x pre)
    have ih' := ih (fun y hy => hpre y (List.mem_cons_of_mem x hy))
    simp only [List.cons_append, checkImageLoop, hc, if_neg hd, if_neg hf,
      List.append_eq, ih', List.replicate_succ, List.length_cons,
      PollResult.mk.injEq]
    exact ⟨trivial, by omega, trivial⟩

/-- C1: with a non-empty task identifier, the poll loop inspects each
well-formed response's status in order: the first `"DONE"` returns that
parsed result immediately, the first `"FAIL"` fails with
`ErrTaskNotCompleted` immediately — in both cases with no further poll and
no further sleep — and every other status sleeps the fixed interval and
polls again. -/
theorem C1_poll_first_terminal
    (u : UUID) (pre post : List PollResponse) (r : PollResponse)
    (hu : u.ID ≠ "")
    (hpre : ∀ x ∈ pre, checkStatusCode x.code = none ∧
      x.body.Status ≠ "DONE" ∧ x.body.Status ≠ "FAIL")
    (hr : checkStatusCode r.code = none) :
    (r.body.Status = "DONE" →
      CheckImage u (pre ++ r :: post) =
        ⟨.done r.body, pre.length + 1,
         List.replicate pre.length sleepInterval⟩) ∧
    (r.body.Status = "FAIL" →
      CheckImage u (pre ++ r :: post) =
        ⟨.failed .ErrTaskNotCompleted, pre.length + 1,
         List.replicate pre.length sleepInterval⟩) ∧
    (∀ rs : List PollResponse,
      (∀ x ∈ rs, checkStatusCode x.code = none ∧
        x.body.Status ≠ "DONE" ∧ x.body.Status ≠ "FAIL") →
      CheckImage u rs =
        ⟨.pending, rs.length, List.replicate rs.length sleepInterval⟩) := by
  refine ⟨?_, ?_, ?_⟩
  · intro hd
    rw [CheckImage, if_neg hu, checkImageLoop_append_pending pre (r :: post) hpre]
    simp [checkImageLoop, hr, hd, Nat.add_comm]
  · intro hf
    have hnd : r.body.Status ≠ "DONE" := by simp [hf]
    rw [CheckImage, if_neg hu, checkImageLoop_append_pending pre (r :: post) hpre]
    simp [checkImageLoop, hr, hf, hnd, Nat.add_comm]
  · intro rs hrs
    rw [CheckImage, if_neg hu, ← List.append_nil rs,
      checkImageLoop_append_pending rs [] hrs]
    simp [checkImageLoop]

/-- C1 witness: one pending response then a `"DONE"` response — the loop
returns the second body after two polls and a single 10-second sleep. -/
theorem C1_poll_first_terminal_witness :
    CheckImage ⟨"task-1", "INITIAL"⟩
      [⟨200, ⟨"task-1", "INITIAL", [], false⟩⟩,
       ⟨200, ⟨"task-1", "DONE", ["YQ=="], false⟩⟩] =
      ⟨.done ⟨"task-1", "DONE", ["YQ=="], false⟩, 2, [10]⟩ := by
  have h := C1_poll_first_terminal ⟨"task-1", "INITIAL"⟩
    [⟨200, ⟨"task-1", "INITIAL", [], false⟩⟩] []
    ⟨200, ⟨"task-1", "DONE", ["YQ=="], false⟩⟩
    (by decide) (by decide) (by decide)
  simpa using h.1 rfl

/-- C2: on every poll iteration the HTTP status is classified before the
body matters: 400, 401, 404, 415 and 500 map to the respective errors, any
such error aborts the loop at that iteration with no further poll and no
sleep and independently of the body, and every other status code yields no
error, the loop proceeding on the parsed body. -/
theorem C2_status_code_classification :
    checkStatusCode 400 = some KErr.ErrBadRequest ∧
    checkStatusCode 401 = some KErr.ErrUnauthorized ∧
    checkStatusCode 404 = some KErr.ErrNotFound ∧
    checkStatusCode 415 = some KErr.ErrUnsupportedMediaType ∧
    checkStatusCode 500 = some KErr.ErrInternalServerError ∧
    (∀ c : Nat, c ≠ 400 → c ≠ 401 → c ≠ 404 → c ≠ 415 → c ≠ 500 →
      checkStatusCode c = none) ∧
    (∀ (u : UUID) (pre post : List PollResponse) (code : Nat) (e : KErr),
      u.ID ≠ "" →
      (∀ x ∈ pre, checkStatusCode x.code = none ∧
        x.body.Status ≠ "DONE" ∧ x.body.Status ≠ "FAIL") →
      checkStatusCode code = some e →
      ∀ body : Image,
        CheckImage u (pre ++ ⟨code, body⟩ :: post) =
          ⟨.failed e, pre.length + 1,
           List.replicate pre.length sleepInterval⟩) ∧
    (∀ (u : UUID) (r : PollResponse),
      u.ID ≠ "" → checkStatusCode r.code = none →
      CheckImage u [r] =
        if r.body.Status = "DONE" then ⟨.done r.body, 1, []⟩
        else if r.body.Status = "FAIL" then
          ⟨.failed .ErrTaskNotCompleted, 1, []⟩
        else ⟨.pending, 1, [sleepInterval]⟩) := by
  refine ⟨rfl, rfl, rfl, rfl, rfl, ?_, ?_, ?_⟩
  · intro c h400 h401 h404 h415 h500
    simp [checkStatusCode, h400, h401, h404, h415, h500]
  · intro u pre post code e hu hpre he body
    rw [CheckImage, if_neg hu,
      checkImageLoop_append_pending pre (⟨code, body⟩ :: post) hpre]
    simp [checkImageLoop, he, Nat.add_comm]
  · intro u r hu hr
    rw [CheckImage, if_neg hu]
    by_cases hd : r.body.Status = "DONE"
    · simp [checkImageLoop, hr, hd]
    · by_cases hf : r.body.Status = "FAIL"
      · simp [checkImageLoop, hr, hd, hf]
      · simp [checkImageLoop, hr, hd, hf]

/-- C2 witness: 402 maps to no error, and a 401 response aborts the poll
loop at once with `ErrUnauthorized`, regardless of the body. -/
theorem C2_status_code_classification_witness :
    checkStatusCode 402 = none ∧
    CheckImage ⟨"task-1", "INITIAL"⟩ [⟨401, ⟨"", "DONE", [], false⟩⟩] =
      ⟨.failed .ErrUnauthorized, 1, []⟩ := by
  refine ⟨?_, ?_⟩
  · exact C2_status_code_classification.2.2.2.2.2.1 402
      (by decide) (by decide) (by decide) (by decide) (by decide)
  · have h := C2_status_code_classification.2.2.2.2.2.2.1
      ⟨"task-1", "INITIAL"⟩ [] [] 401 .ErrUnauthorized
      (by decide) (by decide) (by decide) ⟨"", "DONE", [], false⟩
    simpa using h

/-- C3: `ToByte` does not round-trip base64.  `"YQ=="` is the standard
encoding of the single byte 97, yet `ToByte` returns a buffer of the
*encoded* length — the decoded byte followed by three zero bytes — because
the Go code sizes the buffer with `len(i.Images[0])` and ignores the
count returned by `base64.StdEncoding.Decode`. -/
theorem C3_toByte_returns_padded_buffer :
    base64Encode [97] = "YQ==".data ∧
    ToByte ⟨"task-1", "DONE", ["YQ=="], false⟩ = .ok [97, 0, 0, 0] ∧
    ([97, 0, 0, 0] : List Nat) ≠ [97] := by
  refine ⟨by decide, by decide, by decide⟩

/-- C4: when the prompt is still empty after defaulting, `GetImageUUID`
fails with `ErrEmptyPrompt` and the submission trace is empty — no
external request process is spawned. -/
theorem C4_empty_prompt_no_submission
    (modelID : Int) (p : Params) (run : Params → Int → Except KErr UUID)
    (h : (setDefaultParams p).GenerateParams.Query = "") :
    GetImageUUID modelID p run = (.error .ErrEmptyPrompt, []) := by
  simp [GetImageUUID, h]

/-- C4 witness: the all-zero `Params` value keeps an empty prompt after
defaulting; submission fails locally with an empty trace. -/
theorem C4_empty_prompt_no_submission_witness :
    GetImageUUID 0 ⟨0, 0, 0, "", "", "", ⟨""⟩⟩
      (fun _ _ => .ok ⟨"task-1", "INITIAL"⟩) =
      (.error .ErrEmptyPrompt, []) :=
  C4_empty_prompt_no_submission 0 ⟨0, 0, 0, "", "", "", ⟨""⟩⟩
    (fun _ _ => .ok ⟨"task-1", "INITIAL"⟩) (by decide)

/-- C5: an empty task identifier makes `CheckImage` fail immediately with
`ErrEmptyUUID` — zero polls, zero sleeps — whatever the endpoint would
have answered. -/
theorem C5_empty_identifier_no_network
    (u : UUID) (rs : List PollResponse) (h : u.ID = "") :
    CheckImage u rs = ⟨.failed .ErrEmptyUUID, 0, []⟩ := by
  simp [CheckImage, h]

/-- C5 witness: an empty handle against an endpoint that would answer
`"DONE"` still fails locally with zero polls. -/
theorem C5_empty_identifier_no_network_witness :
    CheckImage ⟨"", "INITIAL"⟩ [⟨200, ⟨"task-1", "DONE", ["YQ=="], false⟩⟩] =
      ⟨.failed .ErrEmptyUUID, 0, []⟩ :=
  C5_empty_identifier_no_network ⟨"", "INITIAL"⟩
    [⟨200, ⟨"task-1", "DONE", ["YQ=="], false⟩⟩] (by decide)

/-- C6 counterexample: on an empty models array neither `SetModel` variant
returns `ErrAuth` — taking `m[0]` raises the Go index-out-of-range runtime
panic — and the `kandinsky.go` variant does not treat a zero id as an
error at all: it stores the model and returns id 0 with no error. -/
theorem C6_counterexample_empty_array_panics :
    SetModelV2 200 [] ⟨0, "", ""⟩ = (.indexOutOfRange, ⟨0, "", ""⟩) ∧
    SetModelOut.indexOutOfRange ≠ SetModelOut.err .ErrAuth ∧
    SetModelKand 200 [⟨0, "Kandinsky", "TEXT2IMAGE"⟩] ⟨0, "", ""⟩ =
      (.ok 0, ⟨0, "Kandinsky", "TEXT2IMAGE"⟩) ∧
    SetModelOut.ok 0 ≠ SetModelOut.err .ErrAuth := by
  refine ⟨by decide, by decide, by decide, by decide⟩

/-- C6 amended: when the HTTP status maps to no error, a *non-empty* array
whose first element has id zero makes the `part_003` variant fail with
`ErrAuth` without storing a model; an *empty* array makes both variants
panic with index-out-of-range (not `ErrAuth`), and the `kandinsky.go`
variant stores the first model unconditionally, returning its id with no
error. -/
theorem C6_amended_zero_id_is_auth_error
    (code : Nat) (models : List Model) (prev : Model)
    (h : checkStatusCode code = none) :
    (models = [] →
      SetModelV2 code models prev = (.indexOutOfRange, prev) ∧
      SetModelKand code models prev = (.indexOutOfRange, prev)) ∧
    (∀ m0 rest, models = m0 :: rest →
      (m0.ID = 0 → SetModelV2 code models prev = (.err .ErrAuth, prev)) ∧
      SetModelKand code models prev = (.ok m0.ID, m0)) := by
  constructor
  · intro he
    subst he
    simp [SetModelV2, SetModelKand, h]
  · intro m0 rest he
    subst he
    constructor
    · intro h0
      simp [SetModelV2, h, h0]
    · simp [SetModelKand, h]

/-- C6 amended witness: a 200 response with first id 0 gives `ErrAuth` in
the `part_003` variant and a stored-and-returned id 0 in the
`kandinsky.go` variant. -/
theorem C6_amended_zero_id_is_auth_error_witness :
    SetModelV2 200 [⟨0, "Kandinsky", "TEXT2IMAGE"⟩] ⟨7, "p", "t"⟩ =
      (.err .ErrAuth, ⟨7, "p", "t"⟩) ∧
    SetModelKand 200 [⟨0, "Kandinsky", "TEXT2IMAGE"⟩] ⟨7, "p", "t"⟩ =
      (.ok 0, ⟨0, "Kandinsky", "TEXT2IMAGE"⟩) := by
  have h := C6_amended_zero_id_is_auth_error 200
    [⟨0, "Kandinsky", "TEXT2IMAGE"⟩] ⟨7, "p", "t"⟩ (by decide)
  obtain ⟨h1, h2⟩ := h.2 ⟨0, "Kandinsky", "TEXT2IMAGE"⟩ [] rfl
  exact ⟨h1 rfl, h2⟩

/-- C7: with zero image payloads, every decoder operation fails with
`ErrEmptyImage`, with an empty file-operation trace (nothing opened,
nothing written, and structurally before any base64 decode). -/
theorem C7_empty_images_rejected
    (i : Image) (name path : String) (h : i.Images = []) :
    ToByte i = .error .ErrEmptyImage ∧
    ToFile i = (.error .ErrEmptyImage, []) ∧
    SavePNGTo i name path = (some .ErrEmptyImage, []) ∧
    SaveJPGTo i name path = (some .ErrEmptyImage, []) := by
  refine ⟨?_, ?_, ?_, ?_⟩ <;> simp [ToByte, ToFile, SavePNGTo, SaveJPGTo, h]

/-- C7 witness: the zero-value `Image` is rejected by all four
operations with `ErrEmptyImage` and an empty trace. -/
theorem C7_empty_images_rejected_witness :
    ToByte ⟨"", "", [], false⟩ = .error .ErrEmptyImage ∧
    ToFile ⟨"", "", [], false⟩ = (.error .ErrEmptyImage, []) ∧
    SavePNGTo ⟨"", "", [], false⟩ "name" "path/" =
      (some .ErrEmptyImage, []) ∧
    SaveJPGTo ⟨"", "", [], false⟩ "name" "path/" =
      (some .ErrEmptyImage, []) :=
  C7_empty_images_rejected ⟨"", "", [], false⟩ "name" "path/" (by decide)

/-- C8 counterexample: the claim's universal quantification over every
image result fails — the images-empty guard runs first, so on a result
with zero payloads an empty name yields `ErrEmptyImage`, not
`ErrEmptyFileName`; and when name and path are both empty the name check
fires first, so an empty path yields `ErrEmptyFileName`, not
`ErrEmptyFilePath`. -/
theorem C8_counterexample_guard_order :
    SavePNGTo ⟨"", "", [], false⟩ "" "path/" = (some .ErrEmptyImage, []) ∧
    some KErr.ErrEmptyImage ≠ some KErr.ErrEmptyFileName ∧
    SavePNGTo ⟨"", "", ["YQ=="], false⟩ "" "" =
      (some .ErrEmptyFileName, []) ∧
    some KErr.ErrEmptyFileName ≠ some KErr.ErrEmptyFilePath := by
  refine ⟨by decide, by decide, by decide, by decide⟩

/-- C8 amended: on a result with at least one payload, an empty name makes
both savers fail with `ErrEmptyFileName`; with a non-empty name, an empty
path makes both fail with `ErrEmptyFilePath`.  In each failure the
file-operation trace is empty: the checks precede any decode or write, and
no file is created. -/
theorem C8_amended_name_path_checks
    (i : Image) (name path : String) (h : i.Images ≠ []) :
    (name = "" →
      SavePNGTo i name path = (some .ErrEmptyFileName, []) ∧
      SaveJPGTo i name path = (some .ErrEmptyFileName, [])) ∧
    (name ≠ "" → path = "" →
      SavePNGTo i name path = (some .ErrEmptyFilePath, []) ∧
      SaveJPGTo i name path = (some .ErrEmptyFilePath, [])) := by
  have hlen : ¬ i.Images.length = 0 := by simpa using h
  constructor
  · intro hn
    simp [SavePNGTo, SaveJPGTo, hlen, hn]
  · intro hn hp
    simp [SavePNGTo, SaveJPGTo, hlen, hn, hp]

/-- C8 amended witness: with one payload, an empty name gives
`ErrEmptyFileName`, and a non-empty name with empty path gives
`ErrEmptyFilePath`, both with empty traces. -/
theorem C8_amended_name_path_checks_witness :
    SavePNGTo ⟨"", "", ["YQ=="], false⟩ "" "path/" =
      (some .ErrEmptyFileName, []) ∧
    SavePNGTo ⟨"", "", ["YQ=="], false⟩ "name" "" =
      (some .ErrEmptyFilePath, []) := by
  refine ⟨((C8_amended_name_path_checks ⟨"", "", ["YQ=="], false⟩ "" "path/"
      (by decide)).1 rfl).1,
    ((C8_amended_name_path_checks ⟨"", "", ["YQ=="], false⟩ "name" ""
      (by decide)).2 (by decide) rfl).1⟩

/-- C9: the defaulting applied before submission: width and height become
128 exactly when 0, the image count becomes 1 exactly when 0, the type is
forced to `"GENERATE"` regardless of input, all other fields are
untouched; and whenever `GetImageUUID` submits, it submits exactly the
defaulted parameters. -/
theorem C9_defaulting_exact (p : Params) :
    (setDefaultParams p).Width = (if p.Width = 0 then 128 else p.Width) ∧
    (setDefaultParams p).Height = (if p.Height = 0 then 128 else p.Height) ∧
    (setDefaultParams p).NumImages =
      (if p.NumImages = 0 then 1 else p.NumImages) ∧
    (setDefaultParams p).Type' = "GENERATE" ∧
    (setDefaultParams p).Style = p.Style ∧
    (setDefaultParams p).NegativePrompt = p.NegativePrompt ∧
    (setDefaultParams p).GenerateParams = p.GenerateParams ∧
    (∀ (modelID : Int) (run : Params → Int → Except KErr UUID),
      (setDefaultParams p).GenerateParams.Query ≠ "" →
      (GetImageUUID modelID p run).2 =
        [(setDefaultParams p, if modelID = 0 then 4 else modelID)]) := by
  refine ⟨?_, ?_, ?_, ?_, ?_, ?_, ?_, ?_⟩
  · simp only [setDefaultParams]
    split_ifs <;> simp_all
  · simp only [setDefaultParams]
    split_ifs <;> simp_all
  · simp only [setDefaultParams]
    split_ifs <;> simp_all
  · simp [setDefaultParams]
  · simp only [setDefaultParams]
    split_ifs <;> simp_all
  · simp only [setDefaultParams]
    split_ifs <;> simp_all
  · simp only [setDefaultParams]
    split_ifs <;> simp_all
  · intro modelID run hq
    simp [GetImageUUID, hq]

/-- C9 witness: a `Params` value with zero width/height/count and a wrong
type is defaulted to 128/128/1/`"GENERATE"`, a non-zero field (style,
prompt) is untouched, and the submission carries the defaulted record. -/
theorem C9_defaulting_exact_witness :
    setDefaultParams ⟨0, 512, 0, "WRONG", "ANIME", "", ⟨"cat"⟩⟩ =
      ⟨128, 512, 1, "GENERATE", "ANIME", "", ⟨"cat"⟩⟩ ∧
    (GetImageUUID 0 ⟨0, 512, 0, "WRONG", "ANIME", "", ⟨"cat"⟩⟩
        (fun _ _ => .ok ⟨"task-1", "INITIAL"⟩)).2 =
      [(⟨128, 512, 1, "GENERATE", "ANIME", "", ⟨"cat"⟩⟩, 4)] := by
  have h := C9_defaulting_exact ⟨0, 512, 0, "WRONG", "ANIME", "", ⟨"cat"⟩⟩
  constructor
  · have h1 := h.1
    have h2 := h.2.1
    have h3 := h.2.2.1
    have h4 := h.2.2.2.1
    have h5 := h.2.2.2.2.1
    have h6 := h.2.2.2.2.2.1
    have h7 := h.2.2.2.2.2.2.1
    revert h1 h2 h3 h4 h5 h6 h7
    decide
  · have h8 := h.2.2.2.2.2.2.2 0
      (fun _ _ => .ok ⟨"task-1", "INITIAL"⟩) (by decide)
    have : setDefaultParams ⟨0, 512, 0, "WRONG", "ANIME", "", ⟨"cat"⟩⟩ =
        ⟨128, 512, 1, "GENERATE", "ANIME", "", ⟨"cat"⟩⟩ := by decide
    rw [h8, this]
    rfl

/-- C10: `SaveJPGTo` behaves exactly as `SavePNGTo` up to the extension:
equal error results, and the JPG file-operation trace is the PNG trace
with the destination `path+name+".png"` renamed to `path+name+".jpg"`
(same validation, same decoded bytes written, destination built by plain
concatenation with no separator). -/
theorem C10_jpg_mirrors_png (i : Image) (name path : String) :
    (SaveJPGTo i name path).1 = (SavePNGTo i name path).1 ∧
    (SaveJPGTo i name path).2 =
      (SavePNGTo i name path).2.map
        (remapDest (path ++ name ++ ".png") (path ++ name ++ ".jpg")) ∧
    (∀ op ∈ (SavePNGTo i name path).2, op.dest = path ++ name ++ ".png") ∧
    (∀ op ∈ (SaveJPGTo i name path).2, op.dest = path ++ name ++ ".jpg") := by
  by_cases h1 : i.Images.length = 0
  · simp [SavePNGTo, SaveJPGTo, h1]
  · by_cases h2 : name = ""
    · simp [SavePNGTo, SaveJPGTo, h1, h2]
    · by_cases h3 : path = ""
      · simp [SavePNGTo, SaveJPGTo, h1, h2, h3]
      · simp only [SavePNGTo, SaveJPGTo, if_neg h1, if_neg h2, if_neg h3]
        cases hdec : base64Decode (i.Images.headD "").data with
        | none =>
          simp only [hdec]
          simp [remapDest, FileOp.dest]
        | some data =>
          simp only [hdec]
          simp [remapDest, FileOp.dest]

/-- C10 witness: on a concrete one-payload image the two savers return the
same (nil) error and write the same byte to `path/name.png` and
`path/name.jpg` respectively. -/
theorem C10_jpg_mirrors_png_witness :
    (SaveJPGTo ⟨"", "", ["YQ=="], false⟩ "name" "path/").1 =
      (SavePNGTo ⟨"", "", ["YQ=="], false⟩ "name" "path/").1 ∧
    (SaveJPGTo ⟨"", "", ["YQ=="], false⟩ "name" "path/").2 =
      [.openTrunc "path/name.jpg", .write "path/name.jpg" [97]] := by
  refine ⟨(C10_jpg_mirrors_png ⟨"", "", ["YQ=="], false⟩ "name" "path/").1,
    by decide⟩

end Kandinsky
